import Mathlib

/-!
Verification development for the Event Finder front-end
(`src/App.tsx`, `src/components/RSVPModal.tsx`, `src/types.ts`).

The TypeScript source is shallowly embedded: pure computations become Lean
functions, React state plus its event handlers and effects become explicit
state-passing functions, and the single network call becomes a function of
an explicit transport outcome.  Dates are the ISO strings the source stores
(`"YYYY-MM-DD"`); day-granular chronological comparison of two valid ISO
date strings coincides with comparison of their `YYYYMMDD` digit values,
which is how `new Date(d).getTime()` orders them in the source.
-/

namespace EventFinder

/-! ### String primitives used by the source (`includes`, `toLowerCase`) -/

/-- `isPrefixOfL needle hay` : `needle` is a prefix of `hay` (character lists). -/
def isPrefixOfL : List Char → List Char → Bool
  | [], _ => true
  | _ :: _, [] => false
  | a :: as, b :: bs => a == b && isPrefixOfL as bs

/-- `infixOfL needle hay` : `needle` occurs contiguously inside `hay`.
Embeds JavaScript `hay.includes(needle)` on the underlying characters. -/
def infixOfL (needle : List Char) : List Char → Bool
  | [] => needle.isEmpty
  | c :: cs => isPrefixOfL needle (c :: cs) || infixOfL needle cs

/-- JavaScript `hay.includes(needle)`. -/
def strIncludes (hay needle : String) : Bool :=
  infixOfL needle.data hay.data

/-- JavaScript `s.toLowerCase()` (modelled character-wise). -/
def lowerStr (s : String) : String :=
  String.mk (s.data.map Char.toLower)

/-! ### ISO dates -/

/-- The date string has the shape `YYYY-MM-DD` (digits and two hyphens);
this is the catalog invariant stated by the data model ("date is a valid
calendar date ... ISO ordering"). -/
def validDate (s : String) : Bool :=
  match s.data with
  | [y1, y2, y3, y4, h1, m1, m2, h2, d1, d2] =>
      y1.isDigit && y2.isDigit && y3.isDigit && y4.isDigit && (h1 == '-') &&
      m1.isDigit && m2.isDigit && (h2 == '-') && d1.isDigit && d2.isDigit
  | _ => false

def digitVal (c : Char) : Nat := c.toNat - 48

/-- Numeric key `YYYYMMDD` of a valid ISO date string; orders valid dates
exactly as `new Date(s).getTime()` does in the source. -/
def dateVal (s : String) : Nat :=
  match s.data with
  | [y1, y2, y3, y4, _, m1, m2, _, d1, d2] =>
      ((((digitVal y1 * 10 + digitVal y2) * 10 + digitVal y3) * 10 + digitVal y4) * 100 +
        (digitVal m1 * 10 + digitVal m2)) * 100 + (digitVal d1 * 10 + digitVal d2)
  | _ => 0

/-- The month component (`MM`) of a valid ISO date string. -/
def monthComponent (s : String) : String :=
  match s.data with
  | [_, _, _, _, _, m1, m2, _, _, _] => String.mk [m1, m2]
  | _ => ""

/-- Embeds `isPast` of `App.tsx`: the event date (taken at local midnight)
is strictly before `today` (taken at local midnight), i.e. strictly before
today at day granularity. -/
def isPast (dateStr todayStr : String) : Bool :=
  dateVal dateStr < dateVal todayStr

/-! ### Data model (`src/types.ts`) -/

inductive Language where
  | en
  | es
deriving DecidableEq, Repr

structure ClinicEvent where
  id : String
  title : String
  date : String
  dateDisplay : String
  time : String
  location : String
  city : String
  address : String
  program : String
  lat : Rat
  lng : Rat
  description : String
  saveTheDate : Bool := false
deriving DecidableEq, Repr

/-! ### Filter Engine (`App.tsx`, `filteredEvents`) -/

structure Filters where
  month : String := ""
  program : String := ""
  showPast : Bool := false
deriving DecidableEq, Repr

/-- The per-event predicate of the `EVENTS.filter(...)` callback in
`App.tsx` (`monthMatch && programMatch && locationMatch && archivalMatch`). -/
def eventMatches (f : Filters) (search todayStr : String) (e : ClinicEvent) : Bool :=
  let monthMatch := f.month == "" || strIncludes e.date ("-" ++ f.month ++ "-")
  let programMatch := f.program == "" || e.program == f.program
  let locationMatch := search == "" ||
    strIncludes (lowerStr e.city) (lowerStr search) ||
    strIncludes (lowerStr e.address) (lowerStr search)
  let archivalMatch := if f.showPast then isPast e.date todayStr else !(isPast e.date todayStr)
  monthMatch && programMatch && locationMatch && archivalMatch

/-- Ascending-by-date comparison used by the `.sort` comparator
(`new Date(a.date).getTime() - new Date(b.date).getTime()`). -/
def dateLe (a b : ClinicEvent) : Prop :=
  dateVal a.date ≤ dateVal b.date

instance : DecidableRel dateLe := fun a b => Nat.decLe _ _

instance : IsTotal ClinicEvent dateLe := ⟨fun a b => Nat.le_total _ _⟩

instance : IsTrans ClinicEvent dateLe := ⟨fun _ _ _ => Nat.le_trans⟩

/-- Embeds `filteredEvents` of `App.tsx`: filter the catalog with the
source predicate, then sort ascending by date.  JavaScript `Array.sort` is
a stable sort, modelled by `List.insertionSort` (stable). -/
def filteredEvents (catalog : List ClinicEvent) (f : Filters) (search todayStr : String) :
    List ClinicEvent :=
  List.insertionSort dateLe (catalog.filter (eventMatches f search todayStr))

/-- The spec's matching rule, written from the spec's words: month filter
unset or the event date's month component equals it; program filter unset
or exactly equal to the event's program label; search text empty or a
case-insensitive substring of the event's city or address; and the event
is in the requested temporal bucket. -/
def specMatches (f : Filters) (search todayStr : String) (e : ClinicEvent) : Bool :=
  (f.month == "" || monthComponent e.date == f.month) &&
  (f.program == "" || e.program == f.program) &&
  (search == "" ||
    strIncludes (lowerStr e.city) (lowerStr search) ||
    strIncludes (lowerStr e.address) (lowerStr search)) &&
  (if f.showPast then isPast e.date todayStr else !(isPast e.date todayStr))

/-- The spec-side Filter Engine: the stable ascending-by-date sort of
exactly the catalog events satisfying the spec's matching rule. -/
def specFilterSort (catalog : List ClinicEvent) (f : Filters) (search todayStr : String) :
    List ClinicEvent :=
  List.insertionSort dateLe (catalog.filter (specMatches f search todayStr))

/-- Concrete filter criteria (used to instantiate theorems). -/
def exFilters : Filters := { month := "03", program := "", showPast := false }

/-! ### RSVP submission flow (`src/components/RSVPModal.tsx`) -/

inductive ContactMethod where
  | byText
  | byEmail
  | byNone
deriving DecidableEq, Repr

structure RSVPPayload where
  eventId : String
  eventTitle : String
  eventDate : String
  name : String
  phone : String
  email : String
  contact_method : ContactMethod
  sms_consent : Bool
  needs : List String
  lang : Language
  source : String
deriving DecidableEq, Repr

/-- Embeds `isToday` of `RSVPModal.tsx`: exact string equality between the
event's ISO date and the current ISO date. -/
def isToday (e : ClinicEvent) (todayStr : String) : Bool :=
  e.date == todayStr

def sameDaySource : String := "Live Event Check-In"

def advanceSource : String := "Planning Ahead RSVP"

/-- The values read from the form's named inputs at submission time. -/
structure FormInput where
  name : String
  phone : String
  email : String
  smsConsent : Bool
deriving DecidableEq, Repr

/-- Embeds the `payload` object assembled inside `handleSubmit`. -/
def buildPayload (e : ClinicEvent) (form : FormInput) (cm : ContactMethod)
    (needs : List String) (lang : Language) (todayStr : String) : RSVPPayload :=
  { eventId := e.id
    eventTitle := e.title
    eventDate := e.dateDisplay
    name := form.name
    phone := form.phone
    email := form.email
    contact_method := cm
    sms_consent := form.smsConsent
    needs := needs
    lang := lang
    source := if isToday e todayStr then sameDaySource else advanceSource }

/-- The form fields of the RSVP modal. -/
inductive FormField where
  | name
  | phone
  | email
  | smsConsent
deriving DecidableEq, Repr

/-- The `required` attribute of each input in the modal's JSX:
name and phone carry `required`, email carries `required={!isToday()}`,
the consent checkbox is optional. -/
def fieldRequired (e : ClinicEvent) (todayStr : String) : FormField → Bool
  | .name => true
  | .phone => true
  | .email => !(isToday e todayStr)
  | .smsConsent => false

/-- Embeds `toggleNeed`:
`prev.includes(val) ? prev.filter(v => v !== val) : [...prev, val]`. -/
def toggleNeed (prev : List String) (val : String) : List String :=
  if prev.contains val then prev.filter (fun v => !(v == val)) else prev ++ [val]

/-- The `status` React state of the modal (the in-flight "submitting"
phase is the separate `loading` flag). -/
inductive SubmitStatus where
  | idle
  | success
  | error
deriving DecidableEq, Repr

/-- Outcome of the single `fetch` call: the promise either resolves (the
`no-cors` response is opaque — its numeric stand-in is never inspected) or
rejects with a local transport error. -/
inductive FetchResult where
  | dispatched (response : Nat)
  | transportError (msg : String)
deriving DecidableEq, Repr

/-- State of one RSVP modal instance: the two React state flags, the
pending self-dismiss timer (ms), whether the modal is still mounted, and
the log of outbound requests issued so far. -/
structure FlowState where
  loading : Bool
  status : SubmitStatus
  closeTimer : Option Nat
  modalOpen : Bool
  sent : List RSVPPayload
deriving DecidableEq, Repr

def initialFlow : FlowState :=
  { loading := false, status := .idle, closeTimer := none, modalOpen := true, sent := [] }

def closeDelayMs : Nat := 2500

/-- First half of `handleSubmit`: `setLoading(true); setStatus('idle')` and
the single `fetch` dispatch of the payload. -/
def submitStart (s : FlowState) (p : RSVPPayload) : FlowState :=
  { s with loading := true, status := .idle, sent := s.sent ++ [p] }

/-- Second half of `handleSubmit`: the `try/catch/finally` around the
awaited fetch — resolution sets `success` and schedules `onClose` after
2500 ms; rejection sets `error`; both clear `loading`. -/
def submitResolve (s : FlowState) (r : FetchResult) : FlowState :=
  match r with
  | .dispatched _ => { s with status := .success, closeTimer := some closeDelayMs, loading := false }
  | .transportError _ => { s with status := .error, loading := false }

/-- One whole submission attempt. -/
def handleSubmit (s : FlowState) (p : RSVPPayload) (r : FetchResult) : FlowState :=
  submitResolve (submitStart s p) r

/-- The scheduled `setTimeout(onClose, 2500)` firing (a no-op when no
timer is pending). -/
def timerFire (s : FlowState) : FlowState :=
  match s.closeTimer with
  | some _ => { s with modalOpen := false, closeTimer := none }
  | none => s

/-- The submit button is `disabled={loading}`. -/
def canSubmit (s : FlowState) : Bool :=
  !s.loading

/-- A concrete catalog event (used to instantiate theorems). -/
def evWorkshopA : ClinicEvent :=
  { id := "e1", title := "Workshop A", date := "2024-01-05", dateDisplay := "Jan 5, 2024",
    time := "10:00 AM", location := "Community Center", city := "Long Beach",
    address := "100 Main St, Long Beach", program := "Unstoppable Workshop",
    lat := 33, lng := -118, description := "A workshop.", saveTheDate := false }

/-- A second concrete catalog event. -/
def evFairB : ClinicEvent :=
  { id := "e2", title := "Fair B", date := "2024-03-10", dateDisplay := "Mar 10, 2024",
    time := "9:00 AM", location := "Park", city := "Torrance",
    address := "200 Oak Ave, Torrance", program := "Community Fair",
    lat := 34, lng := -119, description := "A fair.", saveTheDate := false }

/-- Concrete form input (used to instantiate theorems). -/
def exForm : FormInput :=
  { name := "Jane", phone := "555-1234", email := "", smsConsent := false }

/-- Concrete payload (used to instantiate theorems). -/
def exPayload : RSVPPayload :=
  buildPayload evFairB exForm .byText ["screening"] .en "2024-02-01"

/-! ### Selection state and map view sync (`App.tsx`)

The map library is an external collaborator; the viewport records the last
command applied to it: either an explicit `setView(center, zoom)` or a
`fitBounds` over a point set with a padding fraction. -/

inductive Viewport where
  | view (lat lng : Rat) (zoom : Nat)
  | fitted (pts : List (Rat × Rat)) (padding : Rat)
deriving DecidableEq, Repr

/-- One rendered map marker: position plus the selection emphasis
(enlarged icon, raised z-index) of `App.tsx`'s marker icon. -/
structure Marker where
  eventId : String
  lat : Rat
  lng : Rat
  emphasized : Bool
deriving DecidableEq, Repr

structure AppState where
  selected : Option ClinicEvent
  viewport : Viewport
  markers : List Marker
  rsvpOpen : Bool
deriving DecidableEq, Repr

/-- `isSelected = selectedEvent?.id === event.id` of the marker-building
loop. -/
def markerFor (sel : Option ClinicEvent) (e : ClinicEvent) : Marker :=
  { eventId := e.id, lat := e.lat, lng := e.lng,
    emphasized := match sel with
      | some s => s.id == e.id
      | none => false }

/-- The `pad(0.2)` padding fraction of the fit-bounds call. -/
def padFraction : Rat := 1 / 5

/-- Embeds the marker/viewport reconciliation effect of `App.tsx`
(dependencies `[filteredEvents, selectedEvent]`): all markers are removed
and rebuilt from the filtered set, and when the filtered set is non-empty
and no selection exists the viewport is refit around all markers with the
fixed padding. -/
def reconcile (filtered : List ClinicEvent) (s : AppState) : AppState :=
  let ms := filtered.map (markerFor s.selected)
  if 0 < filtered.length ∧ s.selected = none then
    { s with markers := ms,
             viewport := .fitted (filtered.map (fun e => (e.lat, e.lng))) padFraction }
  else
    { s with markers := ms }

/-- Selecting an event through its map marker:
`marker.on('click', () => setSelectedEvent(event))` followed by the
reconciliation effect. -/
def markerClick (filtered : List ClinicEvent) (e : ClinicEvent) (s : AppState) : AppState :=
  reconcile filtered { s with selected := some e }

/-- Selecting an event through its list entry (`handleSelectEvent`):
`setSelectedEvent(e)` plus `setView([e.lat, e.lng], 14)`, followed by the
reconciliation effect. -/
def listClick (filtered : List ClinicEvent) (e : ClinicEvent) (s : AppState) : AppState :=
  reconcile filtered { s with selected := some e, viewport := .view e.lat e.lng 14 }

/-- A concrete pre-click state (used to instantiate theorems). -/
def exState : AppState :=
  { selected := none, viewport := .view 0 0 10,
    markers := [markerFor none evFairB], rsvpOpen := false }

/-! ### RSVP gating (`App.tsx`, detail panel)

The RSVP button is rendered only when the selected event is neither
save-the-date nor past; while the modal is open its full-screen overlay
blocks the list, markers and detail panel, so the only available actions
are the modal's own. -/

/-- The condition under which the detail panel renders the RSVP button:
`!selectedEvent.saveTheDate && !isPast(selectedEvent.date)`. -/
def canOpenRSVP (s : AppState) (todayStr : String) : Bool :=
  match s.selected with
  | some e => !e.saveTheDate && !(isPast e.date todayStr)
  | none => false

inductive AppAction where
  | selectList (e : ClinicEvent)
  | selectMarker (e : ClinicEvent)
  | clearSelection
  | openRSVP
  | closeRSVP

/-- One user action applied to the app state.  Selection actions exist
only for events of the filtered set (only those have list entries and
markers) and are unavailable while the modal overlay is up; the RSVP
button exists only when the gating condition holds. -/
def appStep (filtered : List ClinicEvent) (todayStr : String) (s : AppState) :
    AppAction → AppState
  | .selectList e =>
      if s.rsvpOpen then s
      else if e ∈ filtered then listClick filtered e s else s
  | .selectMarker e =>
      if s.rsvpOpen then s
      else if e ∈ filtered then markerClick filtered e s else s
  | .clearSelection =>
      if s.rsvpOpen then s
      else reconcile filtered { s with selected := none }
  | .openRSVP =>
      if canOpenRSVP s todayStr then { s with rsvpOpen := true } else s
  | .closeRSVP => { s with rsvpOpen := false }

/-- Startup state: no selection, the initial `setView([33.9719, -118.2108], 10)`,
no markers yet, modal closed. -/
def initialAppState : AppState :=
  { selected := none,
    viewport := .view ((339719 : Rat) / 10000) (-((1182108 : Rat) / 10000)) 10,
    markers := [], rsvpOpen := false }

inductive Reachable (filtered : List ClinicEvent) (todayStr : String) : AppState → Prop where
  | init : Reachable filtered todayStr initialAppState
  | step {s : AppState} (h : Reachable filtered todayStr s) (a : AppAction) :
      Reachable filtered todayStr (appStep filtered todayStr s a)

/-- States used by the C10 witness: select the upcoming fair, then open
the modal; and select an already-past workshop. -/
def selState : AppState :=
  appStep [evFairB] "2024-02-01" initialAppState (.selectList evFairB)

def openState : AppState :=
  appStep [evFairB] "2024-02-01" selState .openRSVP

def pastSelState : AppState :=
  appStep [evWorkshopA] "2024-02-01" initialAppState (.selectList evWorkshopA)

/-! ### Month filter: substring scan versus month component

`App.tsx` tests the month filter with `event.date.includes("-MM-")`.
On a valid ISO date the two hyphens sit at positions 4 and 7, so the only
possible occurrence of a needle that starts and ends with a hyphen is the
one surrounding the month component. -/

theorem dash_beq_eq_false (c : Char) (h : c.isDigit = true) : ('-' == c) = false := by
  rw [beq_eq_false_iff_ne]
  intro e
  rw [← e] at h
  exact absurd h (by decide)

theorem prefix_append_dash_nil (xs : List Char) : isPrefixOfL (xs ++ ['-']) [] = false := by
  cases xs <;> rfl

theorem prefix_append_dash_two (xs : List Char) {d1 d2 : Char}
    (hd1 : d1.isDigit = true) (hd2 : d2.isDigit = true) :
    isPrefixOfL (xs ++ ['-']) [d1, d2] = false := by
  have e1 := dash_beq_eq_false d1 hd1
  have e2 := dash_beq_eq_false d2 hd2
  match xs with
  | [] => simp [isPrefixOfL, e1]
  | [a] => simp [isPrefixOfL, e2]
  | a :: b :: cs => simp [isPrefixOfL, prefix_append_dash_nil]

theorem prefix_month_iff (m : List Char) {m1 m2 d1 d2 : Char}
    (hm1 : m1.isDigit = true) (hm2 : m2.isDigit = true)
    (hd1 : d1.isDigit = true) (hd2 : d2.isDigit = true) :
    isPrefixOfL (m ++ ['-']) [m1, m2, '-', d1, d2] = true ↔ m = [m1, m2] := by
  have e1 := dash_beq_eq_false m1 hm1
  have e2 := dash_beq_eq_false m2 hm2
  have e3 := dash_beq_eq_false d1 hd1
  have e4 := dash_beq_eq_false d2 hd2
  match m with
  | [] => simp [isPrefixOfL, e1]
  | [a] => simp [isPrefixOfL, e2]
  | [a, b] => simp [isPrefixOfL, beq_iff_eq]
  | a :: b :: c :: cs =>
    have htail : isPrefixOfL (cs ++ ['-']) [d1, d2] = false :=
      prefix_append_dash_two cs hd1 hd2
    simp [isPrefixOfL, htail]

theorem infix_month_iff (m : List Char) {y1 y2 y3 y4 m1 m2 d1 d2 : Char}
    (hy1 : y1.isDigit = true) (hy2 : y2.isDigit = true)
    (hy3 : y3.isDigit = true) (hy4 : y4.isDigit = true)
    (hm1 : m1.isDigit = true) (hm2 : m2.isDigit = true)
    (hd1 : d1.isDigit = true) (hd2 : d2.isDigit = true) :
    infixOfL ('-' :: (m ++ ['-'])) [y1, y2, y3, y4, '-', m1, m2, '-', d1, d2] = true ↔
      m = [m1, m2] := by
  have f1 := dash_beq_eq_false y1 hy1
  have f2 := dash_beq_eq_false y2 hy2
  have f3 := dash_beq_eq_false y3 hy3
  have f4 := dash_beq_eq_false y4 hy4
  have f5 := dash_beq_eq_false m1 hm1
  have f6 := dash_beq_eq_false m2 hm2
  have f7 := dash_beq_eq_false d1 hd1
  have f8 := dash_beq_eq_false d2 hd2
  have h7 : isPrefixOfL (m ++ ['-']) [d1, d2] = false := prefix_append_dash_two m hd1 hd2
  simp only [infixOfL, isPrefixOfL, f1, f2, f3, f4, f5, f6, f7, f8, h7,
    beq_self_eq_true, Bool.true_and, Bool.false_and, Bool.false_or, Bool.or_false,
    List.isEmpty_cons]
  exact prefix_month_iff m hm1 hm2 hd1 hd2

/-- A valid ISO date string decomposes into its eight digits. -/
theorem validDate_shape (s : String) (hs : validDate s = true) :
    ∃ y1 y2 y3 y4 m1 m2 d1 d2 : Char,
      s.data = [y1, y2, y3, y4, '-', m1, m2, '-', d1, d2] ∧
      y1.isDigit = true ∧ y2.isDigit = true ∧ y3.isDigit = true ∧ y4.isDigit = true ∧
      m1.isDigit = true ∧ m2.isDigit = true ∧ d1.isDigit = true ∧ d2.isDigit = true := by
  unfold validDate at hs
  split at hs
  · rename_i y1 y2 y3 y4 h1 m1 m2 h2 d1 d2 heq
    simp only [Bool.and_eq_true, beq_iff_eq] at hs
    obtain ⟨⟨⟨⟨⟨⟨⟨⟨⟨hy1, hy2⟩, hy3⟩, hy4⟩, hh1⟩, hm1⟩, hm2⟩, hh2⟩, hd1⟩, hd2⟩ := hs
    subst hh1
    subst hh2
    exact ⟨y1, y2, y3, y4, m1, m2, d1, d2, heq, hy1, hy2, hy3, hy4, hm1, hm2, hd1, hd2⟩
  · exact absurd hs (by simp)

theorem strIncludes_month (s m : String) (hs : validDate s = true) :
    (strIncludes s ("-" ++ m ++ "-") = true) ↔ monthComponent s = m := by
  obtain ⟨y1, y2, y3, y4, m1, m2, d1, d2, hdat, hy1, hy2, hy3, hy4, hm1, hm2, hd1, hd2⟩ :=
    validDate_shape s hs
  have hneedle : ("-" ++ m ++ "-").data = '-' :: (m.data ++ ['-']) := by
    rw [String.data_append, String.data_append]
    rfl
  rw [strIncludes, hneedle, hdat,
    infix_month_iff m.data hy1 hy2 hy3 hy4 hm1 hm2 hd1 hd2]
  have hmc : monthComponent s = String.mk [m1, m2] := by
    simp [monthComponent, hdat]
  rw [hmc]
  constructor
  · intro h
    exact String.ext h.symm
  · intro h
    rw [← h]

/-- Under the catalog's valid-ISO-date invariant the source's per-event
predicate coincides with the spec's matching rule. -/
theorem eventMatches_eq_specMatches (f : Filters) (search todayStr : String) (e : ClinicEvent)
    (hv : validDate e.date = true) :
    eventMatches f search todayStr e = specMatches f search todayStr e := by
  unfold eventMatches specMatches
  have hmonth : (f.month == "" || strIncludes e.date ("-" ++ f.month ++ "-"))
      = (f.month == "" || monthComponent e.date == f.month) := by
    cases hb : (f.month == "") with
    | true => simp
    | false =>
      simp only [Bool.false_or]
      rw [Bool.eq_iff_iff, strIncludes_month e.date f.month hv, beq_iff_eq]
  rw [hmonth]

/-! ### Stability of the date sort -/

theorem filter_orderedInsert_of_eq (d : Nat) (a : ClinicEvent) (ha : dateVal a.date = d) :
    ∀ l : List ClinicEvent,
      (List.orderedInsert dateLe a l).filter (fun e => dateVal e.date == d) =
        a :: l.filter (fun e => dateVal e.date == d)
  | [] => by simp [ha]
  | b :: l => by
    by_cases h : dateLe a b
    · rw [List.orderedInsert_of_le _ l h]
      simp [ha]
    · have hb : (dateVal b.date == d) = false := by
        rw [beq_eq_false_iff_ne]
        simp only [dateLe] at h
        omega
      simp [List.orderedInsert, h, hb, filter_orderedInsert_of_eq d a ha l]

theorem filter_orderedInsert_of_ne (d : Nat) (a : ClinicEvent) (ha : dateVal a.date ≠ d) :
    ∀ l : List ClinicEvent,
      (List.orderedInsert dateLe a l).filter (fun e => dateVal e.date == d) =
        l.filter (fun e => dateVal e.date == d)
  | [] => by
    have ha' : (dateVal a.date == d) = false := beq_eq_false_iff_ne.mpr ha
    simp [ha']
  | b :: l => by
    have ha' : (dateVal a.date == d) = false := beq_eq_false_iff_ne.mpr ha
    by_cases h : dateLe a b
    · rw [List.orderedInsert_of_le _ l h]
      simp [ha']
    · have hins : List.orderedInsert dateLe a (b :: l) = b :: List.orderedInsert dateLe a l := by
        simp [List.orderedInsert, h]
      rw [hins, List.filter_cons, List.filter_cons, filter_orderedInsert_of_ne d a ha l]

/-- The stable sort keeps the original relative order of equal-date events:
restricting the sorted list to any one date gives exactly the corresponding
restriction of the input list. -/
theorem filter_insertionSort_date (d : Nat) :
    ∀ l : List ClinicEvent,
      (List.insertionSort dateLe l).filter (fun e => dateVal e.date == d) =
        l.filter (fun e => dateVal e.date == d)
  | [] => rfl
  | a :: l => by
    rw [List.insertionSort]
    by_cases h : dateVal a.date = d
    · rw [filter_orderedInsert_of_eq d a h, filter_insertionSort_date d l]
      simp [h]
    · rw [filter_orderedInsert_of_ne d a h, filter_insertionSort_date d l]
      have ha' : (dateVal a.date == d) = false := beq_eq_false_iff_ne.mpr h
      simp [ha']

/-- C1: for every catalog of valid-ISO-dated events, filter criteria,
search text and reference day, the Filter Engine's output equals the stable
ascending-by-date sort of exactly those catalog events satisfying the
spec's four matching conditions; the output is sorted ascending by date,
and events with equal dates keep their original catalog order. -/
theorem C1_filter_engine_matches_spec (catalog : List ClinicEvent) (f : Filters)
    (search todayStr : String)
    (hv : ∀ e ∈ catalog, validDate e.date = true) :
    filteredEvents catalog f search todayStr = specFilterSort catalog f search todayStr ∧
    List.Sorted dateLe (filteredEvents catalog f search todayStr) ∧
    ∀ d : Nat,
      (filteredEvents catalog f search todayStr).filter (fun e => dateVal e.date == d) =
        (catalog.filter (eventMatches f search todayStr)).filter
          (fun e => dateVal e.date == d) := by
  refine ⟨?_, ?_, ?_⟩
  · unfold filteredEvents specFilterSort
    congr 1
    apply List.filter_congr
    intro e he
    exact eventMatches_eq_specMatches f search todayStr e (hv e he)
  · exact List.sorted_insertionSort dateLe _
  · intro d
    exact filter_insertionSort_date d _

/-- C8: the Filter Engine is idempotent — applying it to its own output
with the same criteria, search text and reference day returns that output
unchanged. -/
theorem C8_filter_engine_idempotent (catalog : List ClinicEvent) (f : Filters)
    (search todayStr : String) :
    filteredEvents (filteredEvents catalog f search todayStr) f search todayStr =
      filteredEvents catalog f search todayStr := by
  unfold filteredEvents
  have h1 : (List.insertionSort dateLe (catalog.filter (eventMatches f search todayStr))).filter
      (eventMatches f search todayStr) =
      List.insertionSort dateLe (catalog.filter (eventMatches f search todayStr)) := by
    apply List.filter_eq_self.mpr
    intro a ha
    rw [List.mem_insertionSort] at ha
    exact List.of_mem_filter ha
  rw [h1]
  exact List.Sorted.insertionSort_eq (List.sorted_insertionSort dateLe _)

/-- C3: every submission attempt issues exactly one outbound request; a
dispatch without a local transport error yields the success state without
the result depending on the (opaque) response, and a local transport
failure yields the error state. -/
theorem C3_single_request_fire_and_forget (s : FlowState) (p : RSVPPayload) (r : FetchResult) :
    (handleSubmit s p r).sent = s.sent ++ [p] ∧
    (∀ resp : Nat, (handleSubmit s p (.dispatched resp)).status = .success) ∧
    (∀ resp resp' : Nat,
      handleSubmit s p (.dispatched resp) = handleSubmit s p (.dispatched resp')) ∧
    (∀ msg : String, (handleSubmit s p (.transportError msg)).status = .error) := by
  refine ⟨?_, ?_, ?_, ?_⟩
  · cases r <;> rfl
  · intro resp; rfl
  · intro resp resp'; rfl
  · intro msg; rfl

/-- C4: the RSVP form requires the email field exactly when the event's
date differs from the current date, while name and phone are required for
every event. -/
theorem C4_required_fields (e : ClinicEvent) (todayStr : String) :
    (fieldRequired e todayStr .email = true ↔ e.date ≠ todayStr) ∧
    fieldRequired e todayStr .name = true ∧
    fieldRequired e todayStr .phone = true := by
  refine ⟨?_, rfl, rfl⟩
  simp [fieldRequired, isToday]

/-- C5: the payload's provenance field is computed at submission time
solely from whether the event's date equals the current date — the
same-day value exactly when they are equal — and is unaffected by any of
the user-controlled inputs. -/
theorem C5_provenance_tag (e : ClinicEvent) (form form' : FormInput)
    (cm cm' : ContactMethod) (needs needs' : List String) (lang lang' : Language)
    (todayStr : String) :
    (buildPayload e form cm needs lang todayStr).source =
      (if e.date = todayStr then sameDaySource else advanceSource) ∧
    (buildPayload e form cm needs lang todayStr).source =
      (buildPayload e form' cm' needs' lang' todayStr).source := by
  constructor
  · simp [buildPayload, isToday]
  · rfl

/-- C6: a submission attempt enters the in-flight state, then either
resolves to `success` — which schedules the fixed 2500 ms self-dismiss
that closes the modal — or to `error`, which schedules no dismissal,
leaves the modal open, and permits a further attempt that re-enters the
in-flight state. -/
theorem C6_submission_state_machine (s : FlowState) (p p' : RSVPPayload)
    (resp : Nat) (msg : String) (ht : s.closeTimer = none) (hm : s.modalOpen = true) :
    (submitStart s p).loading = true ∧
    (submitStart s p).status = .idle ∧
    (submitResolve (submitStart s p) (.dispatched resp)).status = .success ∧
    (submitResolve (submitStart s p) (.dispatched resp)).closeTimer = some closeDelayMs ∧
    (timerFire (submitResolve (submitStart s p) (.dispatched resp))).modalOpen = false ∧
    (submitResolve (submitStart s p) (.transportError msg)).status = .error ∧
    (submitResolve (submitStart s p) (.transportError msg)).closeTimer = none ∧
    (timerFire (submitResolve (submitStart s p) (.transportError msg))).modalOpen = true ∧
    canSubmit (submitResolve (submitStart s p) (.transportError msg)) = true ∧
    (submitStart (submitResolve (submitStart s p) (.transportError msg)) p').loading = true := by
  refine ⟨rfl, rfl, rfl, rfl, rfl, rfl, ?_, ?_, rfl, rfl⟩
  · simp [submitResolve, submitStart, ht]
  · simp [timerFire, submitResolve, submitStart, ht, hm]

/-- C6 witness: the concrete attempt from a freshly opened modal. -/
theorem C6_submission_state_machine_witness :
    initialFlow.closeTimer = none ∧ initialFlow.modalOpen = true ∧
    ((submitStart initialFlow exPayload).loading = true ∧
      (submitStart initialFlow exPayload).status = .idle ∧
      (submitResolve (submitStart initialFlow exPayload) (.dispatched 0)).status = .success ∧
      (submitResolve (submitStart initialFlow exPayload)
        (.dispatched 0)).closeTimer = some closeDelayMs ∧
      (timerFire (submitResolve (submitStart initialFlow exPayload)
        (.dispatched 0))).modalOpen = false ∧
      (submitResolve (submitStart initialFlow exPayload)
        (.transportError "network unreachable")).status = .error ∧
      (submitResolve (submitStart initialFlow exPayload)
        (.transportError "network unreachable")).closeTimer = none ∧
      (timerFire (submitResolve (submitStart initialFlow exPayload)
        (.transportError "network unreachable"))).modalOpen = true ∧
      canSubmit (submitResolve (submitStart initialFlow exPayload)
        (.transportError "network unreachable")) = true ∧
      (submitStart (submitResolve (submitStart initialFlow exPayload)
        (.transportError "network unreachable")) exPayload).loading = true) :=
  ⟨rfl, rfl,
    C6_submission_state_machine initialFlow exPayload exPayload 0 "network unreachable" rfl rfl⟩

theorem toggleNeed_of_mem (l : List String) (v : String) (h : v ∈ l) :
    toggleNeed l v = l.filter (fun w => !(w == v)) := by
  unfold toggleNeed
  rw [if_pos (List.elem_iff.mpr h)]

theorem toggleNeed_of_not_mem (l : List String) (v : String) (h : v ∉ l) :
    toggleNeed l v = l ++ [v] := by
  unfold toggleNeed
  rw [if_neg]
  intro hc
  exact h (List.elem_iff.mp hc)

/-- C7 counterexample: toggling a tag that is not the most recently
selected one twice does not restore the needs list — the tag moves to the
end. -/
theorem C7_toggle_not_involutive :
    toggleNeed (toggleNeed ["checkin", "screening"] "checkin") "checkin" ≠
      ["checkin", "screening"] := by
  decide

/-- C7 (amended): toggling a tag twice restores the needs selection as a
set — the same tags are selected, and for duplicate-free selections the
result is a permutation of the prior list; toggling an already-selected
tag removes it (leaving the other tags untouched) and toggling an
unselected tag appends it, in which case a second toggle restores the list
exactly. -/
theorem C7_toggle_set_involution (l : List String) (v : String) :
    (∀ x, x ∈ toggleNeed (toggleNeed l v) v ↔ x ∈ l) ∧
    (l.Nodup → (toggleNeed (toggleNeed l v) v).Perm l) ∧
    (v ∈ l → v ∉ toggleNeed l v ∧ ∀ x, x ≠ v → (x ∈ toggleNeed l v ↔ x ∈ l)) ∧
    (v ∉ l → toggleNeed l v = l ++ [v] ∧ toggleNeed (toggleNeed l v) v = l) := by
  have hfun : (fun w : String => !(w == v)) = (fun w : String => decide (w ≠ v)) := by
    funext w
    by_cases h : w = v <;> simp [h]
  by_cases hv : v ∈ l
  · have h1 : toggleNeed l v = l.filter (fun w => !(w == v)) := toggleNeed_of_mem l v hv
    have hnm : v ∉ l.filter (fun w => !(w == v)) := by
      simp [List.mem_filter]
    have h2 : toggleNeed (toggleNeed l v) v = l.filter (fun w => !(w == v)) ++ [v] := by
      rw [h1, toggleNeed_of_not_mem _ v hnm]
    refine ⟨?_, ?_, ?_, ?_⟩
    · intro x
      rw [h2]
      by_cases hx : x = v
      · subst hx
        simp [hv]
      · simp [List.mem_filter, List.mem_append, hx]
    · intro hnd
      rw [h2]
      refine (List.perm_append_comm).trans ?_
      have herase : l.filter (fun w => !(w == v)) = l.erase v := by
        rw [List.Nodup.erase_eq_filter hnd]
        rfl
      rw [List.singleton_append, herase]
      exact (List.perm_cons_erase hv).symm
    · intro _
      rw [h1]
      refine ⟨hnm, ?_⟩
      intro x hx
      simp [List.mem_filter, hx]
    · intro hvn
      exact absurd hv hvn
  · have h1 : toggleNeed l v = l ++ [v] := toggleNeed_of_not_mem l v hv
    have h2 : toggleNeed (toggleNeed l v) v = l := by
      rw [h1, toggleNeed_of_mem _ v (by simp), List.filter_append]
      have hl : l.filter (fun w => !(w == v)) = l := by
        apply List.filter_eq_self.mpr
        intro a ha
        simp only [Bool.not_eq_true']
        rw [beq_eq_false_iff_ne]
        intro e
        exact hv (e ▸ ha)
      simp [hl]
    refine ⟨?_, ?_, ?_, ?_⟩
    · intro x
      rw [h2]
    · intro _
      rw [h2]
    · intro hvl
      exact absurd hvl hv
    · intro _
      exact ⟨h1, h2⟩

/-- C7 witness: the removal and re-addition behaviour at concrete inputs. -/
theorem C7_toggle_set_involution_witness :
    ("checkin" ∈ (["checkin", "screening"] : List String) ∧
      "checkin" ∉ toggleNeed ["checkin", "screening"] "checkin") ∧
    ("goodies" ∉ (["checkin"] : List String) ∧
      toggleNeed ["checkin"] "goodies" = ["checkin", "goodies"] ∧
      toggleNeed (toggleNeed ["checkin"] "goodies") "goodies" = ["checkin"]) :=
  ⟨⟨by decide,
      ((C7_toggle_set_involution ["checkin", "screening"] "checkin").2.2.1 (by decide)).1⟩,
    ⟨by decide,
      (C7_toggle_set_involution ["checkin"] "goodies").2.2.2 (by decide)⟩⟩

/-- C2 counterexample: from a state whose viewport is not already centred
on the event at detail zoom, selecting via the map marker and selecting
via the list entry leave the system in different states — the marker
click does not move the viewport, while the list click sets it to the
event's coordinates at zoom 14. -/
theorem C2_marker_list_not_equivalent :
    evFairB ∈ [evFairB] ∧
    markerClick [evFairB] evFairB exState ≠ listClick [evFairB] evFairB exState := by
  constructor
  · decide
  · intro h
    have hvp : (markerClick [evFairB] evFairB exState).viewport =
        (listClick [evFairB] evFairB exState).viewport := by rw [h]
    revert hvp
    decide

/-- C2 (amended): selecting an event via its map marker and via its list
entry produce the identical selection, marker set, and RSVP-modal flag,
but not the identical viewport — the marker click leaves the viewport
unchanged, while the list click recentres it on the event at the fixed
detail zoom 14. -/
theorem C2_selection_equivalence_amended (filtered : List ClinicEvent) (e : ClinicEvent)
    (s : AppState) (hmem : e ∈ filtered) :
    (markerClick filtered e s).selected = some e ∧
    (listClick filtered e s).selected = some e ∧
    (markerClick filtered e s).markers = (listClick filtered e s).markers ∧
    (markerClick filtered e s).rsvpOpen = s.rsvpOpen ∧
    (listClick filtered e s).rsvpOpen = s.rsvpOpen ∧
    (markerClick filtered e s).viewport = s.viewport ∧
    (listClick filtered e s).viewport = Viewport.view e.lat e.lng 14 := by
  unfold markerClick listClick reconcile
  rw [if_neg (by intro hc; exact Option.noConfusion hc.2),
    if_neg (by intro hc; exact Option.noConfusion hc.2)]
  exact ⟨rfl, rfl, rfl, rfl, rfl, rfl, rfl⟩

/-- C2 amended witness at a concrete state and event. -/
theorem C2_selection_equivalence_amended_witness :
    evFairB ∈ [evFairB] ∧
    ((markerClick [evFairB] evFairB exState).selected = some evFairB ∧
      (listClick [evFairB] evFairB exState).selected = some evFairB ∧
      (markerClick [evFairB] evFairB exState).markers =
        (listClick [evFairB] evFairB exState).markers ∧
      (markerClick [evFairB] evFairB exState).rsvpOpen = exState.rsvpOpen ∧
      (listClick [evFairB] evFairB exState).rsvpOpen = exState.rsvpOpen ∧
      (markerClick [evFairB] evFairB exState).viewport = exState.viewport ∧
      (listClick [evFairB] evFairB exState).viewport =
        Viewport.view evFairB.lat evFairB.lng 14) :=
  ⟨by decide, C2_selection_equivalence_amended [evFairB] evFairB exState (by decide)⟩

/-- C9: on a reconciliation pass with an empty filtered set the viewport
is left unchanged, and with a non-empty filtered set and no selection the
viewport is refit to bound all visible markers with the fixed padding
fraction. -/
theorem C9_reconcile_viewport (filtered : List ClinicEvent) (s : AppState) :
    (filtered = [] → (reconcile filtered s).viewport = s.viewport) ∧
    (filtered ≠ [] → s.selected = none →
      (reconcile filtered s).viewport =
        .fitted (filtered.map (fun e => (e.lat, e.lng))) padFraction) := by
  constructor
  · intro h
    subst h
    rfl
  · intro hne hsel
    unfold reconcile
    rw [if_pos ⟨List.length_pos.mpr hne, hsel⟩]

/-- C9 witness: both branches at concrete states. -/
theorem C9_reconcile_viewport_witness :
    (reconcile [] exState).viewport = exState.viewport ∧
    (reconcile [evFairB] exState).viewport =
      .fitted ([evFairB].map (fun e => (e.lat, e.lng))) padFraction :=
  ⟨(C9_reconcile_viewport [] exState).1 rfl,
    (C9_reconcile_viewport [evFairB] exState).2 (by decide) rfl⟩

theorem reconcile_rsvpOpen (filtered : List ClinicEvent) (s : AppState) :
    (reconcile filtered s).rsvpOpen = s.rsvpOpen := by
  simp only [reconcile]
  split <;> rfl

theorem listClick_rsvpOpen (filtered : List ClinicEvent) (e : ClinicEvent) (s : AppState) :
    (listClick filtered e s).rsvpOpen = s.rsvpOpen := by
  unfold listClick
  rw [reconcile_rsvpOpen]

theorem markerClick_rsvpOpen (filtered : List ClinicEvent) (e : ClinicEvent) (s : AppState) :
    (markerClick filtered e s).rsvpOpen = s.rsvpOpen := by
  unfold markerClick
  rw [reconcile_rsvpOpen]

/-- C10: in every reachable state with the RSVP modal open, the selected
event is neither past nor marked save-the-date; and for a selected event
that is past or save-the-date, the open-RSVP action does nothing. -/
theorem C10_rsvp_open_only_for_active_events (filtered : List ClinicEvent)
    (todayStr : String) (s : AppState) (h : Reachable filtered todayStr s) :
    (s.rsvpOpen = true →
      ∃ e, s.selected = some e ∧ isPast e.date todayStr = false ∧ e.saveTheDate = false) ∧
    (∀ e, s.selected = some e → (isPast e.date todayStr = true ∨ e.saveTheDate = true) →
      appStep filtered todayStr s .openRSVP = s) := by
  have hgate : ∀ s' : AppState, ∀ e, s'.selected = some e →
      (isPast e.date todayStr = true ∨ e.saveTheDate = true) →
      appStep filtered todayStr s' .openRSVP = s' := by
    intro s' e hsel hbad
    have hg : canOpenRSVP s' todayStr = false := by
      unfold canOpenRSVP
      rw [hsel]
      rcases hbad with hb | hb <;> simp [hb]
    simp only [appStep, hg]
    rfl
  refine ⟨?_, hgate s⟩
  induction h with
  | init =>
    intro hopen
    exact absurd hopen (by simp [initialAppState])
  | step hr a ih =>
    rename_i s'
    intro hopen
    cases a with
    | selectList e =>
      simp only [appStep] at hopen ⊢
      by_cases ho : s'.rsvpOpen = true
      · rw [if_pos ho] at hopen ⊢
        exact ih hopen
      · rw [if_neg ho] at hopen ⊢
        by_cases hm : e ∈ filtered
        · rw [if_pos hm] at hopen
          rw [listClick_rsvpOpen] at hopen
          exact absurd hopen ho
        · rw [if_neg hm] at hopen ⊢
          exact ih hopen
    | selectMarker e =>
      simp only [appStep] at hopen ⊢
      by_cases ho : s'.rsvpOpen = true
      · rw [if_pos ho] at hopen ⊢
        exact ih hopen
      · rw [if_neg ho] at hopen ⊢
        by_cases hm : e ∈ filtered
        · rw [if_pos hm] at hopen
          rw [markerClick_rsvpOpen] at hopen
          exact absurd hopen ho
        · rw [if_neg hm] at hopen ⊢
          exact ih hopen
    | clearSelection =>
      simp only [appStep] at hopen ⊢
      by_cases ho : s'.rsvpOpen = true
      · rw [if_pos ho] at hopen ⊢
        exact ih hopen
      · rw [if_neg ho] at hopen
        rw [reconcile_rsvpOpen] at hopen
        exact absurd hopen ho
    | openRSVP =>
      simp only [appStep] at hopen ⊢
      by_cases hg : canOpenRSVP s' todayStr = true
      · rw [if_pos hg] at hopen ⊢
        unfold canOpenRSVP at hg
        cases hsel : s'.selected with
        | none =>
          rw [hsel] at hg
          exact absurd hg (by simp)
        | some e =>
          rw [hsel] at hg
          simp only [Bool.and_eq_true, Bool.not_eq_true'] at hg
          exact ⟨e, by simp [hsel], hg.2, hg.1⟩
      · rw [if_neg hg] at hopen ⊢
        exact ih hopen
    | closeRSVP =>
      simp only [appStep] at hopen
      exact absurd hopen (by simp)

/-- C10 witness: the invariant at a concrete reachable open-modal state,
and the unavailability of open-RSVP at a concrete past-event state. -/
theorem C10_rsvp_open_only_for_active_events_witness :
    (∃ e, openState.selected = some e ∧
      isPast e.date "2024-02-01" = false ∧ e.saveTheDate = false) ∧
    appStep [evWorkshopA] "2024-02-01" pastSelState .openRSVP = pastSelState :=
  ⟨(C10_rsvp_open_only_for_active_events [evFairB] "2024-02-01" openState
      (Reachable.step (Reachable.step Reachable.init (.selectList evFairB)) .openRSVP)).1
      (by decide),
    (C10_rsvp_open_only_for_active_events [evWorkshopA] "2024-02-01" pastSelState
      (Reachable.step Reachable.init (.selectList evWorkshopA))).2
      evWorkshopA (by decide) (Or.inl (by decide))⟩

/-- C1 witness: the spec's example catalog (a past workshop and an
upcoming fair) under the month filter "03" with empty search on
reference day 2024-02-01. -/
theorem C1_filter_engine_matches_spec_witness :
    (∀ e ∈ [evWorkshopA, evFairB], validDate e.date = true) ∧
    (filteredEvents [evWorkshopA, evFairB] exFilters "" "2024-02-01" =
        specFilterSort [evWorkshopA, evFairB] exFilters "" "2024-02-01" ∧
      List.Sorted dateLe (filteredEvents [evWorkshopA, evFairB] exFilters "" "2024-02-01") ∧
      ∀ d : Nat,
        (filteredEvents [evWorkshopA, evFairB] exFilters "" "2024-02-01").filter
            (fun e => dateVal e.date == d) =
          (([evWorkshopA, evFairB]).filter (eventMatches exFilters "" "2024-02-01")).filter
            (fun e => dateVal e.date == d)) :=
  ⟨by decide,
    C1_filter_engine_matches_spec [evWorkshopA, evFairB] exFilters "" "2024-02-01" (by decide)⟩

end EventFinder
